import Mathlib

/-!
Verification development for the group-moderation bot
(src/handlers/user_management.py, src/handlers/content_filter.py,
src/bot.py, src/config.py, src/models.py).

The Python handlers are embedded shallowly: SQLAlchemy sessions become an
explicit `Store` value threaded through each handler, Telegram side effects
(replies, bans, mutes, deletions) become constructors of small output types,
and timestamps become natural numbers of seconds.  Each definition mirrors
the control flow of the source function it is named after.
-/

namespace GroupBot

/-! ## A model of the Python `re` module as used by the source

The source uses `re.compile` only to validate a pattern
(content_filter.py, add_blocked_word) and `re.search(pat, text, re.IGNORECASE)`
to test a pattern against the lower-cased message text (filter_content).

We model the fragment of Python regular-expression syntax the development
needs: literal characters, the wildcard dot, the postfix star, parenthesised
groups, and a leading start anchor.  Character comparison is case-insensitive
throughout (the source always searches with re.IGNORECASE).  Matching is by
Brzozowski derivatives; search tries every start position.
-/

/-- Regular-expression abstract syntax (internal form; `alt` and `void`
arise from derivatives, the surface parser never produces `void`). -/
inductive RE where
  | void : RE
  | eps : RE
  | chr : Char → RE
  | dot : RE
  | alt : RE → RE → RE
  | cat : RE → RE → RE
  | star : RE → RE
deriving Repr, DecidableEq

/-- Does the expression accept the empty string? -/
def RE.nullable : RE → Bool
  | .void => false
  | .eps => true
  | .chr _ => false
  | .dot => false
  | .alt a b => a.nullable || b.nullable
  | .cat a b => a.nullable && b.nullable
  | .star _ => true

/-- Brzozowski derivative; character literals compare case-insensitively,
modelling re.IGNORECASE. -/
def RE.deriv : RE → Char → RE
  | .void, _ => .void
  | .eps, _ => .void
  | .chr c, x => if c.toLower = x.toLower then .eps else .void
  | .dot, _ => .eps
  | .alt a b, x => .alt (a.deriv x) (b.deriv x)
  | .cat a b, x =>
      if a.nullable then .alt (.cat (a.deriv x) b) (b.deriv x)
      else .cat (a.deriv x) b
  | .star r, x => .cat (r.deriv x) (.star r)

/-- Does the expression match some prefix of the character list? -/
def RE.matchesPfx : RE → List Char → Bool
  | r, [] => r.nullable
  | r, c :: cs => r.nullable || (r.deriv c).matchesPfx cs

/-- re.search: the expression matches starting at some position of the text;
when the pattern was anchored with a leading caret only position 0 is tried. -/
def re_search (r : RE) (anchored : Bool) (s : List Char) : Bool :=
  if anchored then r.matchesPfx s
  else (List.range (s.length + 1)).any (fun i => r.matchesPfx (s.drop i))

mutual

/-- Parse one atom (group, dot, or literal character).  The characters
that carry regex syntax in the modelled fragment are not literals. -/
def parseAtom : Nat → List Char → Option (RE × List Char)
  | 0, _ => none
  | fuel + 1, cs =>
      match cs with
      | [] => none
      | '(' :: rest =>
          match parseSeq fuel rest with
          | some (r, ')' :: rest2) => some (r, rest2)
          | _ => none
      | '.' :: rest => some (.dot, rest)
      | ')' :: _ => none
      | '*' :: _ => none
      | '^' :: _ => none
      | '|' :: _ => none
      | c :: rest => some (.chr c, rest)

/-- Parse a sequence of starred atoms, stopping at a closing parenthesis
or the end of the input. -/
def parseSeq : Nat → List Char → Option (RE × List Char)
  | 0, _ => none
  | fuel + 1, cs =>
      match cs with
      | [] => some (.eps, [])
      | ')' :: _ => some (.eps, cs)
      | _ =>
          match parseAtom fuel cs with
          | none => none
          | some (a, rest) =>
              match rest with
              | '*' :: rest2 =>
                  match parseSeq fuel rest2 with
                  | none => none
                  | some (b, rest3) => some (.cat (.star a) b, rest3)
              | _ =>
                  match parseSeq fuel rest with
                  | none => none
                  | some (b, rest3) => some (.cat a b, rest3)

end

/-- re.compile: parse the whole pattern (an optional leading caret anchors
the search), returning the anchor flag and the syntax tree, or none when the
pattern does not compile — e.g. an unbalanced parenthesis. -/
def re_compile (p : String) : Option (Bool × RE) :=
  let cs := p.toList
  let (anchored, cs) :=
    match cs with
    | '^' :: rest => (true, rest)
    | _ => (false, cs)
  match parseSeq (2 * cs.length + 2) cs with
  | some (r, []) => some (anchored, r)
  | _ => none

/-- Does the pattern compile?  (Models re.compile succeeding.) -/
def re_compile_ok (p : String) : Bool :=
  (re_compile p).isSome

/-- re.search on a textual pattern over a string, none when the pattern
does not compile (Python raises re.error). -/
def re_search_str (p : String) (text : String) : Option Bool :=
  match re_compile p with
  | none => none
  | some (anchored, r) => some (re_search r anchored text.toList)

/-! ## String helpers (Python substring and lower-casing) -/

/-- Python str.lower(), character-wise (structurally recursive so that
concrete runs reduce inside the kernel). -/
def lowerStr (s : String) : String := String.mk (s.data.map Char.toLower)

/-- Python str.split(sep) on the character list: every separator starts a
new chunk, so the result is never empty. -/
def splitChars (sep : Char) : List Char → List (List Char)
  | [] => [[]]
  | c :: cs =>
      let r := splitChars sep cs
      if c = sep then [] :: r
      else
        match r with
        | [] => [[c]]
        | w :: ws => (c :: w) :: ws

/-- Python str.split(sep) producing strings. -/
def pySplit (sep : Char) (s : String) : List String :=
  (splitChars sep s.data).map String.mk

/-- Does the first list occur as an initial segment of the second?
(Spelled out to keep the development self-contained.) -/
def charsHead : List Char → List Char → Bool
  | [], _ => true
  | _ :: _, [] => false
  | c :: cs, d :: ds => c = d && charsHead cs ds

/-- The Python expression needle in hay (substring containment). -/
def substr (needle hay : String) : Bool :=
  (List.range (hay.toList.length + 1)).any
    (fun i => charsHead needle.toList (hay.toList.drop i))

/-! ## Data model (src/models.py)

Only the columns the handlers read or write are carried.  SQLAlchemy row
identity (query ... .first() then mutate that row) is modelled by updating
the first matching element of the corresponding list. -/

/-- groups table (models.py class Group): the columns the handlers use. -/
structure Group where
  id : Nat
  chat_id : String
  title : String
  anti_flood_enabled : Bool := true
deriving Repr, DecidableEq

/-- group_users table (models.py class GroupUser). -/
structure GroupUser where
  user_id : String
  group_id : Nat
  is_approved : Bool := false
  warnings_count : Nat := 0
deriving Repr, DecidableEq

/-- warnings table (models.py class Warning); append-only audit rows. -/
structure Warning where
  user_id : String
  group_id : Nat
  reason : String
  issued_by : String
deriving Repr, DecidableEq

/-- blocked_words table (models.py class BlockedWord). -/
structure BlockedWord where
  group_id : Nat
  word : String
  is_regex : Bool := false
deriving Repr, DecidableEq

/-- The persistent store behind database.db: the four tables the claims
touch, plus the autoincrement counter handing out Group primary keys. -/
structure Store where
  groups : List Group
  users : List GroupUser
  warnings : List Warning
  blockedWords : List BlockedWord
  nextGroupId : Nat
deriving Repr, DecidableEq

/-- Update the first list element satisfying the predicate (SQLAlchemy:
query(...).first() returns a row object and mutating it updates that row). -/
def updateFirst {α : Type} (p : α → Bool) (f : α → α) : List α → List α
  | [] => []
  | x :: xs => if p x then f x :: xs else x :: updateFirst p f xs

/-! ## handle_captcha (src/handlers/user_management.py lines 77-98)

query.data is the button callback payload (the welcome handler installs
the string captcha_<new_member.id>).  The handler splits the payload on
an underscore, looks up the first GroupUser row with that user id, and
approves it.  The id of the user who clicked the button is available on
the callback query but the source never reads it; the embedding keeps it
as an (unused) argument so that theorems can speak about it. -/

/-- Replies the captcha handler can produce. -/
inductive CaptchaOut where
  /-- "✅ Verification successful! You can now chat in the group." -/
  | verified : CaptchaOut
  /-- "❌ User not found." -/
  | userNotFound : CaptchaOut
  /-- query.data.split('_')[1] raised IndexError: session closed without
  commit, nothing observable. -/
  | errored : CaptchaOut
deriving Repr, DecidableEq

/-- Set is_approved on the first group_users row with the given user id
(the row object returned by .first(), mutated and committed). -/
def approveFirst (uid : String) (users : List GroupUser) : List GroupUser :=
  updateFirst (fun u => u.user_id = uid)
    (fun u => { u with is_approved := true }) users

/-- handle_captcha: split the payload, look the encoded id up in
group_users, approve the first matching row.  clickerId is the id of the
user pressing the button; the source never consults it. -/
def handle_captcha (payload : String) (clickerId : Nat) (s : Store) :
    Store × CaptchaOut :=
  match (pySplit '_' payload).drop 1 with
  | [] => (s, .errored)
  | uid :: _ =>
      match s.users.find? (fun u => u.user_id = uid) with
      | some _ => ({ s with users := approveFirst uid s.users }, .verified)
      | none => (s, .userNotFound)

/-! ## warn_user (src/handlers/user_management.py lines 100-161)

Config.MAX_WARNINGS (src/config.py, default 3) is passed explicitly.
The admin check queries the live administrator list of the chat; the
embedding takes its boolean outcome.  replyTarget is
update.message.reply_to_message.from_user (none when the command was not
sent as a reply).  Note the source adds the Warning row to the session
before looking the member up and commits at the end of every path that
reaches that point, including the member-not-found path. -/

/-- Observable outcome of /warn. -/
inductive WarnOut where
  /-- "❌ Only admins can use this command." -/
  | adminOnly : WarnOut
  /-- "❌ Please reply to the user's message to warn them." -/
  | usage : WarnOut
  /-- ban_chat_member plus the banned-for-reaching-max reply. -/
  | banned : WarnOut
  /-- the warning-issued reply carrying count/max and warnings left. -/
  | warned (count : Nat) (left : Int) : WarnOut
  /-- "❌ User not found in database." -/
  | userNotFound : WarnOut
deriving Repr, DecidableEq

/-- The reason string of /warn: the space-join of the arguments, or the
default when none were given. -/
def warnReason (args : List String) : String :=
  if args.isEmpty then "No reason provided" else " ".intercalate args

/-- Increment warnings_count on the first group_users row of the member
(the row object returned by .first(), mutated and committed). -/
def bumpWarningCount (target : String) (gid : Nat)
    (users : List GroupUser) : List GroupUser :=
  updateFirst (fun v => v.user_id = target && v.group_id = gid)
    (fun v => { v with warnings_count := v.warnings_count + 1 }) users

/-- warn_user.  maxWarnings is Config.MAX_WARNINGS; isAdmin the live
admin-list membership of the issuer; chatId/chatTitle identify the chat;
replyTarget the replied-to user's id; args the command arguments. -/
def warn_user (maxWarnings : Nat) (isAdmin : Bool) (chatId chatTitle : String)
    (issuerId : Nat) (replyTarget : Option Nat) (args : List String)
    (s : Store) : Store × WarnOut :=
  if !isAdmin then (s, .adminOnly)
  else
    let reason := warnReason args
    match replyTarget with
    | none => (s, .usage)
    | some targetId =>
        let (g, s) :=
          match s.groups.find? (fun g => g.chat_id = chatId) with
          | some g => (g, s)
          | none =>
              let g : Group := { id := s.nextGroupId, chat_id := chatId,
                                 title := chatTitle }
              (g, { s with groups := s.groups ++ [g],
                           nextGroupId := s.nextGroupId + 1 })
        let w : Warning := { user_id := toString targetId, group_id := g.id,
                             reason := reason,
                             issued_by := toString issuerId }
        match s.users.find? (fun u =>
            u.user_id = toString targetId && u.group_id = g.id) with
        | some u =>
            let newCount := u.warnings_count + 1
            let s := { s with
              users := bumpWarningCount (toString targetId) g.id s.users,
              warnings := s.warnings ++ [w] }
            if newCount ≥ maxWarnings then (s, .banned)
            else (s, .warned newCount ((maxWarnings : Int) - newCount))
        | none =>
            ({ s with warnings := s.warnings ++ [w] }, .userNotFound)

/-! ## filter_content (src/handlers/content_filter.py lines 69-111)

The message text is lower-cased once; each BlockedWord row of the group is
then tested in table order — re.search with re.IGNORECASE for regex rows,
case-insensitive substring for plain rows — and the first hit deletes the
message with the blocked-content reply.  Only afterwards is the global
banned-link substring list (Config.BANNED_LINKS) consulted.  A regex row
whose pattern does not compile makes re.search raise; the surrounding
try/except then abandons the whole evaluation without deleting anything,
modelled by the errored outcome. -/

/-- Verdict of filter_content for one message. -/
inductive FilterOut where
  /-- no Group row for this chat: handler returns untouched. -/
  | noGroup : FilterOut
  /-- message left alone. -/
  | allow : FilterOut
  /-- delete + "your message contained blocked content" (blocked word hit). -/
  | deleteBlockedWord : FilterOut
  /-- delete + "banned links are not allowed" (banned link hit). -/
  | deleteBannedLink : FilterOut
  /-- a stored regex pattern failed to compile: exception path, no action. -/
  | errored : FilterOut
deriving Repr, DecidableEq

/-- Test one BlockedWord row against the lower-cased message text, none when
a regex row fails to compile (re.error). -/
def bwTest (w : BlockedWord) (lowerText : String) : Option Bool :=
  if w.is_regex then re_search_str w.word lowerText
  else some (substr (lowerStr w.word) lowerText)

/-- The for-loop over the group's BlockedWord rows. -/
def scanBlockedWords (lowerText : String) : List BlockedWord → FilterOut
  | [] => .allow
  | w :: ws =>
      match bwTest w lowerText with
      | none => .errored
      | some true => .deleteBlockedWord
      | some false => scanBlockedWords lowerText ws

/-- filter_content.  bannedLinks is Config.BANNED_LINKS. -/
def filter_content (bannedLinks : List String) (chatId : String)
    (text : String) (s : Store) : FilterOut :=
  match s.groups.find? (fun g => g.chat_id = chatId) with
  | none => .noGroup
  | some g =>
      let lowerText := lowerStr text
      let rows := s.blockedWords.filter (fun w => w.group_id = g.id)
      match scanBlockedWords lowerText rows with
      | .allow =>
          if bannedLinks.any (fun l => substr l lowerText) then
            .deleteBannedLink
          else .allow
      | out => out

/-! ## add_blocked_word (src/handlers/content_filter.py lines 158-205)

/block <word> [--regex]: admin-gated; the word is the space-join of the
arguments (with --regex removed when present); a regex-flagged pattern must
compile or the command replies invalid and stores nothing; a word already
present for the group is refused; otherwise one row is inserted. -/

/-- Observable outcome of /block. -/
inductive BlockOut where
  /-- "❌ Only admins can use this command." -/
  | adminOnly : BlockOut
  /-- "❌ Usage: /block <word> [--regex]" -/
  | usage : BlockOut
  /-- "❌ Invalid regex pattern." -/
  | invalidPattern : BlockOut
  /-- "❌ This word is already blocked." -/
  | alreadyBlocked : BlockOut
  /-- "✅ Word '...' added to blocklist." -/
  | added : BlockOut
deriving Repr, DecidableEq

/-- The stored word of /block: the space-join of the arguments, with the
--regex flag removed when present. -/
def blockWordOf (args : List String) : String :=
  if args.contains "--regex" then
    " ".intercalate (args.filter (fun a => a ≠ "--regex"))
  else " ".intercalate args

/-- add_blocked_word. -/
def add_blocked_word (isAdmin : Bool) (chatId chatTitle : String)
    (args : List String) (s : Store) : Store × BlockOut :=
  if !isAdmin then (s, .adminOnly)
  else if args.isEmpty then (s, .usage)
  else
    let (g, s) :=
      match s.groups.find? (fun g => g.chat_id = chatId) with
      | some g => (g, s)
      | none =>
          let g : Group := { id := s.nextGroupId, chat_id := chatId,
                             title := chatTitle }
          (g, { s with groups := s.groups ++ [g],
                       nextGroupId := s.nextGroupId + 1 })
    let isRegex := args.contains "--regex"
    let word := blockWordOf args
    if isRegex && !(re_compile_ok word) then (s, .invalidPattern)
    else
      match s.blockedWords.find? (fun w =>
          w.group_id = g.id && w.word = word) with
      | some _ => (s, .alreadyBlocked)
      | none =>
          ({ s with blockedWords := s.blockedWords ++
              [{ group_id := g.id, word := word, is_regex := isRegex }] },
           .added)

/-! ## check_flood (src/handlers/content_filter.py lines 14-67)

ContentFilterHandler keeps one plain dictionary user_message_count keyed by
the Telegram user id alone (the chat id is only used to look the group's
anti_flood_enabled flag up) and a single last_reset_time shared by all
users; when a message arrives more than Config.FLOOD_WINDOW seconds after
last_reset_time the whole dictionary is cleared.  Each entry holds a count
and a first_message_time; a user whose count reaches Config.FLOOD_LIMIT
within the window is muted and that entry alone is reset.
Timestamps are seconds (non-negative, observed in arrival order), so
(a - b).seconds becomes truncated natural subtraction. -/

/-- The handler's in-memory flood state: user_message_count and
last_reset_time. -/
structure FloodState where
  counts : Nat → Option (Nat × Nat)
  lastReset : Nat

/-- The empty dictionary (handler construction time t0). -/
def FloodState.init (t0 : Nat) : FloodState :=
  { counts := fun _ => none, lastReset := t0 }

/-- Flood classification of one observed message. -/
inductive FloodClass where
  /-- restrict_chat_member for 30 minutes + flooding reply. -/
  | flood : FloodClass
  /-- no action. -/
  | normal : FloodClass
deriving Repr, DecidableEq

/-- check_flood.  floodLimit/floodWindow are Config.FLOOD_LIMIT and
Config.FLOOD_WINDOW; the group's anti_flood_enabled flag is read from the
store by chat id. -/
def check_flood (floodLimit floodWindow : Nat) (chatId : String)
    (userId : Nat) (now : Nat) (s : Store) (st : FloodState) :
    FloodState × FloodClass :=
  let (counts, lastReset) :=
    if now - st.lastReset > floodWindow then
      ((fun _ => none : Nat → Option (Nat × Nat)), now)
    else (st.counts, st.lastReset)
  let entry := (counts userId).getD (0, now)
  let entry := (entry.1 + 1, entry.2)
  let counts := fun u => if u = userId then some entry else counts u
  match s.groups.find? (fun g => g.chat_id = chatId) with
  | none => ({ counts := counts, lastReset := lastReset }, .normal)
  | some g =>
      if g.anti_flood_enabled then
        if entry.1 ≥ floodLimit && now - entry.2 ≤ floodWindow then
          ({ counts := fun u => if u = userId then some (0, now) else counts u,
             lastReset := lastReset }, .flood)
        else ({ counts := counts, lastReset := lastReset }, .normal)
      else ({ counts := counts, lastReset := lastReset }, .normal)

/-- Run check_flood over a list of (chatId, userId, time) observations,
collecting the classification of each. -/
def runFlood (floodLimit floodWindow : Nat) (s : Store) :
    List (String × Nat × Nat) → FloodState → FloodState × List FloodClass
  | [], st => (st, [])
  | (c, u, t) :: rest, st =>
      let (st, cls) := check_flood floodLimit floodWindow c u t s st
      let (st, tl) := runFlood floodLimit floodWindow s rest st
      (st, cls :: tl)

/-! ## message_handler (src/bot.py lines 415-459)

The wired auto-moderation pipeline: disabled moderation or an admin sender
short-circuits to no action; otherwise the link filter and then the
bad-word filter run, each deleting the message with its own notice. -/

/-- Verdict of the bot.py auto-moderation pipeline for one message. -/
inductive MsgDecision where
  /-- message left alone. -/
  | allow : MsgDecision
  /-- delete + "links are not allowed in this group!". -/
  | deleteLinks : MsgDecision
  /-- delete + "inappropriate language is not allowed!". -/
  | deleteBadWords : MsgDecision
deriving Repr, DecidableEq

/-- A character the link regex of contains_links accepts after the scheme:
the class [$-_@.&+] is the ASCII range 0x24-0x5F (which already contains
the digits, the upper-case letters, @ . & + and the percent sign that
starts the %hh alternative), joined with [a-zA-Z], [0-9] and
[!*\\(\\),]. -/
def linkChar (c : Char) : Bool :=
  ('$' ≤ c && c ≤ '_') || ('a' ≤ c && c ≤ 'z') || ('A' ≤ c && c ≤ 'Z') ||
  ('0' ≤ c && c ≤ '9') ||
  c = '!' || c = '*' || c = '\\' || c = '(' || c = ')' || c = ','

/-- contains_links (src/bot.py lines 461-464): re.search for
http[s]?://(...)+, i.e. some position carries "http://" or "https://"
followed by at least one character of the class. -/
def contains_links (text : String) : Bool :=
  let cs := text.toList
  (List.range (cs.length + 1)).any (fun i =>
    let t := cs.drop i
    (charsHead "http://".toList t &&
      match t.drop 7 with
      | c :: _ => linkChar c
      | [] => false) ||
    (charsHead "https://".toList t &&
      match t.drop 8 with
      | c :: _ => linkChar c
      | [] => false))

/-- contains_bad_words (src/bot.py lines 466-469): some configured bad word
occurs as a substring of the lower-cased text. -/
def contains_bad_words (badWords : List String) (text : String) : Bool :=
  badWords.any (fun w => substr w (lowerStr text))

/-- The filtering evaluation of message_handler once the admin exemption
has been passed: the link filter, then the bad-word filter. -/
def filterVerdict (filterLinks filterBadWords : Bool) (badWords : List String)
    (text : String) : MsgDecision :=
  if filterLinks && contains_links text then .deleteLinks
  else if filterBadWords && contains_bad_words badWords text then
    .deleteBadWords
  else .allow

/-- message_handler (src/bot.py lines 415-459).  autoMod is
config.AUTO_MODERATION_ENABLED, isAdmin the live admin check of the
sender, filterLinks/filterBadWords/badWords the corresponding config
fields, text the message text (or caption, or ""). -/
def message_handler (autoMod isAdmin filterLinks filterBadWords : Bool)
    (badWords : List String) (text : String) : MsgDecision :=
  if !autoMod then .allow
  else if isAdmin then .allow
  else if filterLinks && contains_links text then .deleteLinks
  else if filterBadWords && contains_bad_words badWords text then
    .deleteBadWords
  else .allow

/-! ## Concrete scenarios used by the theorems below -/

/-- A group with chat id c1, database id 1, anti-flood on (column default). -/
def demoGroup : Group := { id := 1, chat_id := "c1", title := "t" }

/-- Store carrying one plain blocked word for the demo group. -/
def bwStore : Store :=
  { groups := [demoGroup], users := [], warnings := [],
    blockedWords := [{ group_id := 1, word := "badword1" }], nextGroupId := 2 }

/-- Store carrying one yet-unapproved member with user id 123. -/
def captchaStore : Store :=
  { groups := [demoGroup],
    users := [{ user_id := "123", group_id := 1 }],
    warnings := [], blockedWords := [], nextGroupId := 2 }

/-- Store carrying one approved member, user id 5, zero warnings. -/
def memberStore : Store :=
  { groups := [demoGroup],
    users := [{ user_id := "5", group_id := 1, is_approved := true }],
    warnings := [], blockedWords := [], nextGroupId := 2 }

/-- Two groups A and B, both with anti-flood enabled. -/
def floodStore : Store :=
  { groups := [{ id := 1, chat_id := "A", title := "a" },
               { id := 2, chat_id := "B", title := "b" }],
    users := [], warnings := [], blockedWords := [], nextGroupId := 3 }

/-- Five messages of user 7 in group A, all within 10 seconds. -/
def floodBurst : List (String × Nat × Nat) :=
  [("A", 7, 0), ("A", 7, 2), ("A", 7, 4), ("A", 7, 6), ("A", 7, 8)]

/-- Five messages of user 7 in group A, spaced 3 seconds apart. -/
def floodSpaced : List (String × Nat × Nat) :=
  [("A", 7, 0), ("A", 7, 3), ("A", 7, 6), ("A", 7, 9), ("A", 7, 12)]

/-- Four messages of user 7 in group A followed by one in group B. -/
def floodCross : List (String × Nat × Nat) :=
  [("A", 7, 0), ("A", 7, 1), ("A", 7, 2), ("A", 7, 3), ("B", 7, 4)]

/-- A message of user 8, then a message of user 7 past the window. -/
def floodStale : List (String × Nat × Nat) := [("A", 8, 0), ("A", 7, 15)]

/-- First /warn on member 5 of the demo group (admin 42, no arguments,
MAX_WARNINGS 3). -/
def warnStep1 : Store × WarnOut := warn_user 3 true "c1" "t" 42 (some 5) [] memberStore

/-- Second /warn on member 5. -/
def warnStep2 : Store × WarnOut := warn_user 3 true "c1" "t" 42 (some 5) [] warnStep1.1

/-- Third /warn on member 5. -/
def warnStep3 : Store × WarnOut := warn_user 3 true "c1" "t" 42 (some 5) [] warnStep2.1

/-- Fourth /warn on member 5. -/
def warnStep4 : Store × WarnOut := warn_user 3 true "c1" "t" 42 (some 5) [] warnStep3.1

/-! ## C1 — captcha identity binding -/

/-- C1 counterexample: a ButtonPressed event whose clicking user id (999)
differs from the id encoded in the payload (123) still sets the stored
member's approval flag — handle_captcha never consults the clicker, so the
claimed identity check does not hold on the code. -/
theorem captcha_third_party_click_approves :
    (999 : Nat) ≠ 123 ∧
    (handle_captcha "captcha_123" 999 captchaStore).2 = CaptchaOut.verified ∧
    (handle_captcha "captcha_123" 999 captchaStore).1.users =
      [{ user_id := "123", group_id := 1, is_approved := true }] ∧
    captchaStore.users = [{ user_id := "123", group_id := 1 }] :=
  ⟨by decide, rfl, rfl, rfl⟩

/-- C1 (amended): the captcha handler ignores the clicking user entirely;
it approves the first stored member whose user id equals the id encoded in
the button payload whenever such a row exists, for any clicker, and when no
such row exists it replies user-not-found and leaves the store unchanged. -/
theorem captcha_approves_encoded_target :
    (∀ (payload : String) (c₁ c₂ : Nat) (s : Store),
      handle_captcha payload c₁ s = handle_captcha payload c₂ s) ∧
    (∀ (payload : String) (clicker : Nat) (uid : String) (rest : List String)
        (s : Store),
      (pySplit '_' payload).drop 1 = uid :: rest →
      (s.users.find? (fun u => u.user_id = uid) = none →
        handle_captcha payload clicker s = (s, CaptchaOut.userNotFound)) ∧
      ((s.users.find? (fun u => u.user_id = uid)).isSome →
        handle_captcha payload clicker s =
          ({ s with users := approveFirst uid s.users },
           CaptchaOut.verified))) := by
  refine ⟨fun payload c₁ c₂ s => rfl, ?_⟩
  intro payload clicker uid rest s hsplit
  constructor
  · intro hnone
    simp [handle_captcha, hsplit, hnone]
  · intro hsome
    obtain ⟨u, hu⟩ := Option.isSome_iff_exists.mp hsome
    simp [handle_captcha, hsplit, hu]

/-- C1 witness: the amended theorem applied to the concrete store holding
unapproved member 123, payload captcha_123, clicker 999. -/
theorem captcha_approves_encoded_target_witness :
    (pySplit '_' "captcha_123").drop 1 = "123" :: ([] : List String) ∧
    (captchaStore.users.find? (fun u => u.user_id = "123")).isSome ∧
    handle_captcha "captcha_123" 999 captchaStore =
      ({ captchaStore with users := approveFirst "123" captchaStore.users },
       CaptchaOut.verified) := by
  refine ⟨rfl, rfl, ?_⟩
  exact (captcha_approves_encoded_target.2 "captcha_123" 999 "123" []
    captchaStore rfl).2 rfl

/-! ## C2 — /warn on a user with no member row -/

/-- C2 counterexample: /warn by admin 42 on user 5, who has no GroupUser
row in the store, replies user-not-found yet still commits a Warning row —
warn_user adds the Warning to the session before the member lookup and the
final commit runs on the not-found path too. -/
theorem warn_missing_member_commits_warning :
    captchaStore.users.find?
      (fun v => v.user_id = toString (5 : Nat) && v.group_id = 1) = none ∧
    (warn_user 3 true "c1" "t" 42 (some 5) [] captchaStore).2 =
      WarnOut.userNotFound ∧
    (warn_user 3 true "c1" "t" 42 (some 5) [] captchaStore).1.warnings =
      [{ user_id := "5", group_id := 1, reason := "No reason provided",
         issued_by := "42" }] ∧
    captchaStore.warnings = [] :=
  ⟨rfl, rfl, rfl, rfl⟩

/-- C2 (amended): an admin /warn on a user with no member row in the group
replies user-not-found and changes no warning count, but the Warning row is
nevertheless committed to the store — committed Warning rows are not always
paired with a count increment. -/
theorem warn_missing_member_commits (maxW : Nat) (chatId title : String)
    (issuer target : Nat) (args : List String) (s : Store) (g : Group)
    (hg : s.groups.find? (fun g' => g'.chat_id = chatId) = some g)
    (hu : s.users.find?
      (fun v => v.user_id = toString target && v.group_id = g.id) = none) :
    warn_user maxW true chatId title issuer (some target) args s =
      ({ s with warnings := s.warnings ++
          [{ user_id := toString target, group_id := g.id,
             reason := warnReason args, issued_by := toString issuer }] },
       WarnOut.userNotFound) := by
  simp [warn_user, hg, hu]

/-- C2 witness: the amended theorem applied to the store with no row for
user 5. -/
theorem warn_missing_member_commits_witness :
    captchaStore.groups.find? (fun g' => g'.chat_id = "c1") = some demoGroup ∧
    captchaStore.users.find?
      (fun v => v.user_id = toString (5 : Nat) && v.group_id = demoGroup.id)
        = none ∧
    warn_user 3 true "c1" "t" 42 (some 5) [] captchaStore =
      ({ captchaStore with warnings := captchaStore.warnings ++
          [{ user_id := toString (5 : Nat), group_id := demoGroup.id,
             reason := warnReason [], issued_by := toString (42 : Nat) }] },
       WarnOut.userNotFound) := by
  refine ⟨rfl, rfl, ?_⟩
  exact warn_missing_member_commits 3 "c1" "t" 42 5 [] captchaStore demoGroup
    rfl rfl

/-! ## C3 — warning accumulation and the auto-ban threshold -/

/-- C3 counterexample: with MAX_WARNINGS 3, the third successful /warn on
member 5 emits the ban but leaves the stored warning count at 3 instead of
resetting it to 0, and a fourth /warn drives the count to 4 > 3 — the
stored count both misses the claimed reset and exceeds max_warnings. -/
theorem warn_count_never_reset :
    warnStep3.2 = WarnOut.banned ∧
    warnStep3.1.users =
      [{ user_id := "5", group_id := 1, is_approved := true,
         warnings_count := 3 }] ∧
    (3 : Nat) ≠ 0 ∧
    warnStep4.2 = WarnOut.banned ∧
    warnStep4.1.users =
      [{ user_id := "5", group_id := 1, is_approved := true,
         warnings_count := 4 }] ∧
    ¬ (4 ≤ 3) :=
  ⟨rfl, rfl, by decide, rfl, rfl, by decide⟩

/-- C3 (amended): each successful /warn on an existing member appends the
Warning row and sets the stored count to previous+1, and emits the Ban
decision exactly when the post-increment count is at least max_warnings —
but the count is never reset, so it keeps growing past max_warnings on
later calls. -/
theorem warn_increment_and_ban_threshold (maxW : Nat) (chatId title : String)
    (issuer target : Nat) (args : List String) (s : Store) (g : Group)
    (u : GroupUser)
    (hg : s.groups.find? (fun g' => g'.chat_id = chatId) = some g)
    (hu : s.users.find?
      (fun v => v.user_id = toString target && v.group_id = g.id) = some u) :
    (warn_user maxW true chatId title issuer (some target) args s).1.users =
      bumpWarningCount (toString target) g.id s.users ∧
    (warn_user maxW true chatId title issuer (some target) args s).1.warnings
      = s.warnings ++
        [{ user_id := toString target, group_id := g.id,
           reason := warnReason args, issued_by := toString issuer }] ∧
    ((warn_user maxW true chatId title issuer (some target) args s).2 =
        WarnOut.banned ↔ maxW ≤ u.warnings_count + 1) ∧
    (u.warnings_count + 1 < maxW →
      (warn_user maxW true chatId title issuer (some target) args s).2 =
        WarnOut.warned (u.warnings_count + 1)
          ((maxW : Int) - (u.warnings_count + 1))) := by
  by_cases h : maxW ≤ u.warnings_count + 1
  · refine ⟨?_, ?_, ?_, ?_⟩ <;> simp [warn_user, hg, hu, h]
  · refine ⟨?_, ?_, ?_, ?_⟩ <;> simp [warn_user, hg, hu, h]

/-- C3 witness: the amended theorem applied to member 5 with zero prior
warnings and MAX_WARNINGS 3: the first /warn yields count 1 and the
warned-not-banned reply. -/
theorem warn_increment_and_ban_threshold_witness :
    memberStore.groups.find? (fun g' => g'.chat_id = "c1") = some demoGroup ∧
    memberStore.users.find?
      (fun v => v.user_id = toString (5 : Nat) && v.group_id = demoGroup.id)
      = some { user_id := "5", group_id := 1, is_approved := true } ∧
    (0 : Nat) + 1 < 3 ∧
    (warn_user 3 true "c1" "t" 42 (some 5) [] memberStore).2 =
      WarnOut.warned 1 2 := by
  refine ⟨rfl, rfl, by decide, ?_⟩
  have h := (warn_increment_and_ban_threshold 3 "c1" "t" 42 5 [] memberStore
    demoGroup { user_id := "5", group_id := 1, is_approved := true }
    rfl rfl).2.2.2 (by decide)
  exact h.trans (by decide)

/-! ## C4 — administrators are exempt from content filtering -/

/-- C4: with auto-moderation enabled, a message from an administrator
always passes untouched, while the identical message from a non-admin
sender, all other inputs held constant, receives exactly the verdict of
the filtering evaluation (link filter first, then bad-word filter). -/
theorem admin_exempt_from_filtering (filterLinks filterBadWords : Bool)
    (badWords : List String) (text : String) :
    message_handler true true filterLinks filterBadWords badWords text =
      MsgDecision.allow ∧
    message_handler true false filterLinks filterBadWords badWords text =
      filterVerdict filterLinks filterBadWords badWords text :=
  ⟨rfl, rfl⟩

/-! ## C5 — blocked words are evaluated before banned links -/

/-- A blocked-word row whose regex (if any) compiles never makes the
evaluation raise. -/
theorem bwTest_ne_none (w : BlockedWord) (lt : String)
    (hw : w.is_regex = true → re_compile_ok w.word = true) :
    bwTest w lt ≠ none := by
  unfold bwTest
  by_cases hr : w.is_regex
  · simp only [hr, if_true]
    have hok := hw hr
    unfold re_compile_ok at hok
    unfold re_search_str
    cases hcomp : re_compile w.word with
    | none => rw [hcomp] at hok; simp at hok
    | some pr => cases pr; simp
  · simp [hr]

/-- If every regex row compiles and some row matches, the scan over the
group's blocked words ends in the blocked-word deletion. -/
theorem scanBlockedWords_hit (lt : String) (ws : List BlockedWord)
    (hwf : ∀ w ∈ ws, w.is_regex = true → re_compile_ok w.word = true)
    (hm : ∃ w ∈ ws, bwTest w lt = some true) :
    scanBlockedWords lt ws = FilterOut.deleteBlockedWord := by
  induction ws with
  | nil => simp at hm
  | cons w ws ih =>
      cases ht : bwTest w lt with
      | none =>
          exact absurd ht (bwTest_ne_none w lt (hwf w (List.mem_cons_self w ws)))
      | some b =>
          cases b
          · have hstep : scanBlockedWords lt (w :: ws) =
                scanBlockedWords lt ws := by
              simp [scanBlockedWords, ht]
            rw [hstep]
            refine ih (fun w' hw' => hwf w' (List.mem_cons_of_mem _ hw')) ?_
            rcases hm with ⟨w', hw', hmt⟩
            rcases List.mem_cons.mp hw' with rfl | hmem
            · rw [ht] at hmt; cases hmt
            · exact ⟨w', hmem, hmt⟩
          · simp [scanBlockedWords, ht]

/-- C5: when the message matches some blocked-word row of the group (and
every stored regex row compiles, which registration guarantees), the
verdict is the blocked-word deletion no matter what the banned-link list
holds — blocked words are evaluated first and the first hit
short-circuits; in particular "visit spam.com now badword1" against
blocklist [badword1] and banned links [spam.com] is rejected with the
blocked-word attribution even though the banned-link "spam.com" also
occurs in the text. -/
theorem blocked_word_beats_banned_link :
    (∀ (bannedLinks : List String) (chatId text : String) (s : Store)
        (g : Group),
      s.groups.find? (fun g' => g'.chat_id = chatId) = some g →
      (∀ w ∈ s.blockedWords.filter (fun w => w.group_id = g.id),
        w.is_regex = true → re_compile_ok w.word = true) →
      (∃ w ∈ s.blockedWords.filter (fun w => w.group_id = g.id),
        bwTest w (lowerStr text) = some true) →
      filter_content bannedLinks chatId text s =
        FilterOut.deleteBlockedWord) ∧
    (filter_content ["spam.com"] "c1" "visit spam.com now badword1" bwStore =
        FilterOut.deleteBlockedWord ∧
      substr "spam.com" (lowerStr "visit spam.com now badword1") = true ∧
      bwTest { group_id := 1, word := "badword1" }
        (lowerStr "visit spam.com now badword1") = some true) := by
  constructor
  · intro bannedLinks chatId text s g hg hwf hm
    have hscan := scanBlockedWords_hit (lowerStr text)
      (s.blockedWords.filter (fun w => w.group_id = g.id)) hwf hm
    simp [filter_content, hg, hscan]
  · exact ⟨rfl, rfl, rfl⟩

/-- C5 witness: the short-circuit theorem applied to the literal input of
the claim. -/
theorem blocked_word_beats_banned_link_witness :
    bwStore.groups.find? (fun g' => g'.chat_id = "c1") = some demoGroup ∧
    filter_content ["spam.com"] "c1" "visit spam.com now badword1" bwStore =
      FilterOut.deleteBlockedWord := by
  refine ⟨rfl, ?_⟩
  exact blocked_word_beats_banned_link.1 ["spam.com"] "c1"
    "visit spam.com now badword1" bwStore demoGroup rfl
    (by decide) (by decide)

/-! ## C6 — regex patterns are validated before being stored -/

/-- A list containing an element is not empty. -/
theorem contains_ne_empty {args : List String} {x : String}
    (h : args.contains x = true) : args.isEmpty = false := by
  cases args with
  | nil => simp [List.contains] at h
  | cons a as => rfl

/-- Shape of the blocked-word table after /block: either untouched, or
extended by exactly the registered row — whose pattern compiles whenever
the regex flag was given and which was absent before. -/
theorem add_blocked_word_table_cases (ia : Bool) (chatId title : String)
    (args : List String) (s : Store) :
    (add_blocked_word ia chatId title args s).1.blockedWords =
      s.blockedWords ∨
    (∃ gid : Nat,
      (add_blocked_word ia chatId title args s).1.blockedWords =
        s.blockedWords ++
          [{ group_id := gid, word := blockWordOf args,
             is_regex := args.contains "--regex" }] ∧
      (args.contains "--regex" = true →
        re_compile_ok (blockWordOf args) = true) ∧
      s.blockedWords.find?
        (fun w => w.group_id = gid && w.word = blockWordOf args) = none) := by
  by_cases hia : ia
  · by_cases hne : args.isEmpty
    · left
      simp [add_blocked_word, hia, hne]
    · by_cases hok : re_compile_ok (blockWordOf args) = true
      · have hcomp : args.contains "--regex" = true →
            re_compile_ok (blockWordOf args) = true := fun _ => hok
        cases hfind : s.groups.find? (fun g => g.chat_id = chatId) with
        | some g =>
            cases hdup : s.blockedWords.find?
                (fun w => w.group_id = g.id && w.word = blockWordOf args) with
            | some w0 =>
                left
                simp [add_blocked_word, hia, hne, hok, hfind, hdup]
            | none =>
                refine Or.inr ⟨g.id, ?_, hcomp, hdup⟩
                simp [add_blocked_word, hia, hne, hok, hfind, hdup]
        | none =>
            cases hdup : s.blockedWords.find?
                (fun w => w.group_id = s.nextGroupId &&
                  w.word = blockWordOf args) with
            | some w0 =>
                left
                simp [add_blocked_word, hia, hne, hok, hfind, hdup]
            | none =>
                refine Or.inr ⟨s.nextGroupId, ?_, hcomp, hdup⟩
                simp [add_blocked_word, hia, hne, hok, hfind, hdup]
      · by_cases hreg : "--regex" ∈ args
        · left
          cases hfind : s.groups.find? (fun g => g.chat_id = chatId) with
          | some g => simp [add_blocked_word, hia, hne, hok, hreg, hfind]
          | none => simp [add_blocked_word, hia, hne, hok, hreg, hfind]
        · have hcomp : args.contains "--regex" = true →
              re_compile_ok (blockWordOf args) = true := by
            intro h
            exact absurd (by simpa using h) hreg
          cases hfind : s.groups.find? (fun g => g.chat_id = chatId) with
          | some g =>
              cases hdup : s.blockedWords.find?
                  (fun w => w.group_id = g.id &&
                    w.word = blockWordOf args) with
              | some w0 =>
                  left
                  simp [add_blocked_word, hia, hne, hreg, hfind, hdup]
              | none =>
                  refine Or.inr ⟨g.id, ?_, hcomp, hdup⟩
                  simp [add_blocked_word, hia, hne, hreg, hfind, hdup]
          | none =>
              cases hdup : s.blockedWords.find?
                  (fun w => w.group_id = s.nextGroupId &&
                    w.word = blockWordOf args) with
              | some w0 =>
                  left
                  simp [add_blocked_word, hia, hne, hreg, hfind, hdup]
              | none =>
                  refine Or.inr ⟨s.nextGroupId, ?_, hcomp, hdup⟩
                  simp [add_blocked_word, hia, hne, hreg, hfind, hdup]
  · left
    simp [add_blocked_word, hia]

/-- C6: a regex-flagged pattern that does not compile is answered with the
invalid-pattern error and stores nothing; a store whose regex rows all
compile keeps that invariant across any /block call, so no stored regex
row ever holds a non-compiling pattern; concretely "(unclosed" is rejected
while "^spam.*" is accepted, stored, and matches "Spammy Text"
case-insensitively. -/
theorem regex_validated_before_storage :
    (∀ (chatId title : String) (args : List String) (s : Store),
      args.contains "--regex" = true →
      re_compile_ok (blockWordOf args) = false →
      (add_blocked_word true chatId title args s).1.blockedWords =
        s.blockedWords ∧
      (add_blocked_word true chatId title args s).2 =
        BlockOut.invalidPattern) ∧
    (∀ (ia : Bool) (chatId title : String) (args : List String) (s : Store),
      (∀ w ∈ s.blockedWords, w.is_regex = true →
        re_compile_ok w.word = true) →
      ∀ w ∈ (add_blocked_word ia chatId title args s).1.blockedWords,
        w.is_regex = true → re_compile_ok w.word = true) ∧
    (re_compile_ok "(unclosed" = false ∧
      add_blocked_word true "c1" "t" ["(unclosed", "--regex"] bwStore =
        (bwStore, BlockOut.invalidPattern) ∧
      (add_blocked_word true "c1" "t" ["^spam.*", "--regex"] bwStore).1.blockedWords =
        bwStore.blockedWords ++
          [{ group_id := 1, word := "^spam.*", is_regex := true }] ∧
      bwTest { group_id := 1, word := "^spam.*", is_regex := true }
        (lowerStr "Spammy Text") = some true) := by
  refine ⟨?_, ?_, by decide, by decide, by decide, by decide⟩
  · intro chatId title args s hreg hok
    have hne := contains_ne_empty hreg
    have hreg' : "--regex" ∈ args := by simpa using hreg
    cases hfind : s.groups.find? (fun g => g.chat_id = chatId) with
    | some g =>
        constructor <;> simp [add_blocked_word, hne, hreg', hok, hfind]
    | none =>
        constructor <;> simp [add_blocked_word, hne, hreg', hok, hfind]
  · intro ia chatId title args s hwf w hw hwreg
    rcases add_blocked_word_table_cases ia chatId title args s with
      hsame | ⟨gid, heq, hcomp, -⟩
    · rw [hsame] at hw
      exact hwf w hw hwreg
    · rw [heq] at hw
      rcases List.mem_append.mp hw with hmem | hnew
      · exact hwf w hmem hwreg
      · have hwval : w = ⟨gid, blockWordOf args, args.contains "--regex"⟩ := by
          simpa using hnew
        subst hwval
        exact hcomp hwreg

/-- C6 witness: the rejection branch of the validation theorem applied to
the literal pattern "(unclosed". -/
theorem regex_validated_before_storage_witness :
    (["(unclosed", "--regex"].contains "--regex" = true) ∧
    re_compile_ok (blockWordOf ["(unclosed", "--regex"]) = false ∧
    (add_blocked_word true "c1" "t" ["(unclosed", "--regex"] bwStore).1.blockedWords =
      bwStore.blockedWords := by
  refine ⟨by decide, by decide, ?_⟩
  exact (regex_validated_before_storage.1 "c1" "t" ["(unclosed", "--regex"]
    bwStore (by decide) (by decide)).1

/-! ## C7 — flood classification on the two reference traces -/

/-- C7: with flood_limit 5 and flood_window 10 seconds, starting from the
empty flood state, five messages of one user in one anti-flood-enabled
group all within 10 seconds classify Normal on the first four and Flood on
the fifth, while five messages spaced 3 seconds apart never classify Flood
(the window reset fires before the fifth message). -/
theorem flood_burst_and_spacing :
    (runFlood 5 10 floodStore floodBurst (FloodState.init 0)).2 =
      [FloodClass.normal, FloodClass.normal, FloodClass.normal,
       FloodClass.normal, FloodClass.flood] ∧
    (runFlood 5 10 floodStore floodSpaced (FloodState.init 0)).2 =
      [FloodClass.normal, FloodClass.normal, FloodClass.normal,
       FloodClass.normal, FloodClass.normal] :=
  ⟨rfl, rfl⟩

/-! ## C8 — how the flood window is keyed and evicted -/

/-- C8 counterexample: the flood counter is keyed by the user id alone,
not by (group, user): after four messages of user 7 in group A, that
user's first message in group B already classifies Flood, while the same
group-B message from the empty state is Normal — observations in one group
change the classification in another; and the stale-window reset triggered
by user 7's late message also erases user 8's window rather than leaving
other keys unchanged. -/
theorem flood_window_not_keyed_per_group :
    (runFlood 5 10 floodStore floodCross (FloodState.init 0)).2 =
      [FloodClass.normal, FloodClass.normal, FloodClass.normal,
       FloodClass.normal, FloodClass.flood] ∧
    (runFlood 5 10 floodStore [("B", 7, 4)] (FloodState.init 0)).2 =
      [FloodClass.normal] ∧
    (runFlood 5 10 floodStore floodStale (FloodState.init 0)).1.counts 8 =
      none :=
  ⟨rfl, rfl, rfl⟩

/-- C8 (amended): the flood window is keyed by the user id alone — the
chat id only selects the group's anti-flood flag, so any two chats whose
flags agree yield identical states and classifications for the same user —
and the stale-window eviction is global: when now is more than
flood_window seconds past the single shared last-reset time, the entire
table is dropped, so after the observation only the observing user's entry
remains and the shared last-reset time becomes now. -/
theorem flood_window_global_state
    (floodLimit floodWindow : Nat) (c c' : String) (u now : Nat)
    (s : Store) (st : FloodState)
    (henab : (s.groups.find? (fun g => g.chat_id = c)).map
        (fun g => g.anti_flood_enabled) =
      (s.groups.find? (fun g => g.chat_id = c')).map
        (fun g => g.anti_flood_enabled)) :
    check_flood floodLimit floodWindow c u now s st =
      check_flood floodLimit floodWindow c' u now s st ∧
    (floodWindow < now - st.lastReset →
      (check_flood floodLimit floodWindow c u now s st).1.lastReset = now ∧
      ∀ u', u' ≠ u →
        (check_flood floodLimit floodWindow c u now s st).1.counts u' =
          none) := by
  constructor
  · cases hfc : s.groups.find? (fun g => g.chat_id = c) with
    | none =>
        cases hfc' : s.groups.find? (fun g => g.chat_id = c') with
        | none => simp [check_flood, hfc, hfc']
        | some g' => rw [hfc, hfc'] at henab; simp at henab
    | some g =>
        cases hfc' : s.groups.find? (fun g => g.chat_id = c') with
        | none => rw [hfc, hfc'] at henab; simp at henab
        | some g' =>
            rw [hfc, hfc'] at henab
            have he : g.anti_flood_enabled = g'.anti_flood_enabled := by
              simpa using henab
            simp [check_flood, hfc, hfc', he]
  · intro hlt
    constructor
    · cases hfc : s.groups.find? (fun g => g.chat_id = c) with
      | none => simp [check_flood, hfc, hlt]
      | some g =>
          by_cases ha : g.anti_flood_enabled <;>
            simp [check_flood, hfc, hlt, ha] <;> split <;> rfl
    · intro u' hu'
      cases hfc : s.groups.find? (fun g => g.chat_id = c) with
      | none => simp [check_flood, hfc, hlt, hu']
      | some g =>
          by_cases ha : g.anti_flood_enabled <;>
            simp [check_flood, hfc, hlt, ha, hu'] <;> split <;>
              simp [hu']

/-- C8 witness: the amended theorem applied to groups A and B (both with
anti-flood enabled) and an observation 15 seconds past last-reset 0 with
window 10. -/
theorem flood_window_global_state_witness :
    ((floodStore.groups.find? (fun g => g.chat_id = "A")).map
        (fun g => g.anti_flood_enabled) =
      (floodStore.groups.find? (fun g => g.chat_id = "B")).map
        (fun g => g.anti_flood_enabled)) ∧
    (10 : Nat) < 15 - (FloodState.init 0).lastReset ∧
    check_flood 5 10 "A" 7 15 floodStore (FloodState.init 0) =
      check_flood 5 10 "B" 7 15 floodStore (FloodState.init 0) ∧
    (check_flood 5 10 "A" 7 15 floodStore (FloodState.init 0)).1.lastReset
      = 15 ∧
    (check_flood 5 10 "A" 7 15 floodStore (FloodState.init 0)).1.counts 8
      = none := by
  have h := flood_window_global_state 5 10 "A" "B" 7 15 floodStore
    (FloodState.init 0) (by decide)
  exact ⟨by decide, by decide, h.1, (h.2 (by decide)).1,
    (h.2 (by decide)).2 8 (by decide)⟩

/-! ## C9 — /warn not sent as a reply -/

/-- C9: a /warn carrying no replied-to target leaves the store completely
unchanged and is answered with the usage reply (after the admin gate,
which replies admin-only instead for non-admins, equally without touching
the store) — the handler returns before any Warning row or count change. -/
theorem warn_without_reply_is_noop (maxW : Nat) (isAdmin : Bool)
    (chatId title : String) (issuer : Nat) (args : List String) (s : Store) :
    warn_user maxW isAdmin chatId title issuer none args s =
      (s, if isAdmin then WarnOut.usage else WarnOut.adminOnly) := by
  cases isAdmin <;> simp [warn_user]

/-! ## C10 — duplicate blocked words are never inserted twice -/

/-- C10: registering a word already stored for the group leaves the store
untouched (rejected by the duplicate check, or by the regex validation
before it, each with its reply), and every /block call preserves
at-most-one-BlockedWord-row per (group id, word). -/
theorem duplicate_blocked_word_rejected :
    (∀ (chatId title : String) (args : List String) (s : Store) (g : Group),
      args.isEmpty = false →
      s.groups.find? (fun g' => g'.chat_id = chatId) = some g →
      (s.blockedWords.find? (fun w => w.group_id = g.id &&
        w.word = blockWordOf args)).isSome →
      (add_blocked_word true chatId title args s).1 = s ∧
      ((add_blocked_word true chatId title args s).2 =
          BlockOut.alreadyBlocked ∨
        (add_blocked_word true chatId title args s).2 =
          BlockOut.invalidPattern)) ∧
    (∀ (ia : Bool) (chatId title : String) (args : List String) (s : Store)
        (gid : Nat) (word : String),
      s.blockedWords.countP
        (fun w => w.group_id = gid && w.word = word) ≤ 1 →
      (add_blocked_word ia chatId title args s).1.blockedWords.countP
        (fun w => w.group_id = gid && w.word = word) ≤ 1) := by
  constructor
  · intro chatId title args s g hne hg hdup
    obtain ⟨w0, hw0⟩ := Option.isSome_iff_exists.mp hdup
    by_cases hok : re_compile_ok (blockWordOf args) = true
    · constructor
      · simp [add_blocked_word, hne, hg, hok, hw0]
      · left
        simp [add_blocked_word, hne, hg, hok, hw0]
    · by_cases hreg : "--regex" ∈ args
      · constructor
        · simp [add_blocked_word, hne, hg, hok, hreg]
        · right
          simp [add_blocked_word, hne, hg, hok, hreg]
      · constructor
        · simp [add_blocked_word, hne, hg, hreg, hw0]
        · left
          simp [add_blocked_word, hne, hg, hreg, hw0]
  · intro ia chatId title args s gid word hcount
    rcases add_blocked_word_table_cases ia chatId title args s with
      hsame | ⟨gid0, heq, -, hnodup⟩
    · rw [hsame]
      exact hcount
    · rw [heq, List.countP_append]
      by_cases hp : ((gid0 = gid) ∧ (blockWordOf args = word))
      · obtain ⟨h1, h2⟩ := hp
        subst h1
        subst h2
        have hzero : s.blockedWords.countP
            (fun w => w.group_id = gid0 && w.word = blockWordOf args) = 0 := by
          rw [List.countP_eq_zero]
          intro a ha
          have := List.find?_eq_none.mp hnodup a ha
          simpa using this
        rw [hzero]
        simp [List.countP_cons]
      · have hrow : ((fun w : BlockedWord =>
            w.group_id = gid && w.word = word)
              ⟨gid0, blockWordOf args, args.contains "--regex"⟩) = false := by
          simp only [Bool.and_eq_false_iff]
          by_cases h1 : gid0 = gid
          · right
            subst h1
            have h2 : ¬ blockWordOf args = word := fun h => hp ⟨rfl, h⟩
            simpa using h2
          · left
            simpa using h1
        have : List.countP (fun w : BlockedWord =>
            w.group_id = gid && w.word = word)
            [⟨gid0, blockWordOf args, args.contains "--regex"⟩] = 0 := by
          simp [List.countP_cons, hrow]
        omega

/-- C10 witness: the duplicate-rejection branch applied to the store
already holding badword1 for the demo group. -/
theorem duplicate_blocked_word_rejected_witness :
    (["badword1"] : List String).isEmpty = false ∧
    bwStore.groups.find? (fun g' => g'.chat_id = "c1") = some demoGroup ∧
    (bwStore.blockedWords.find? (fun w => w.group_id = demoGroup.id &&
      w.word = blockWordOf ["badword1"])).isSome ∧
    (add_blocked_word true "c1" "t" ["badword1"] bwStore).1 = bwStore := by
  refine ⟨rfl, rfl, by decide, ?_⟩
  exact (duplicate_blocked_word_rejected.1 "c1" "t" ["badword1"] bwStore
    demoGroup rfl rfl (by decide)).1

end GroupBot
